import Mathlib

/-!
Verification of the asset-fetch core of the UNFORBIDDEN pitch-deck app.

The repository holds near-duplicate revisions of one single-page app.  The
logic under verification is:

* `fetchWithRetry` — two source variants:
  - first revision (src/index.tsx lines 44-77, identical in
    src/unnamed/part_002 lines 43-76): the effective status is
    `error?.status || error?.error?.status` (may stay undefined) and the
    retryable statuses include the string "UNKNOWN";
  - second revision (src/index.tsx lines 599-630): the effective status
    gets a fallback of 500 when falsy, the "UNKNOWN" arm is dropped, and
    the effective message falls back to "Unknown error".

* the `SlideBackground` controller (first revision: src/index.tsx lines
  170-249; second revision: src/index.tsx lines 712-751; guarded variant
  without retry button: src/unnamed/part_002 lines 159-230).

JavaScript truthiness of `x || y` chains is modelled by `JSVal` and `jor`.
-/

/-- Model of the JavaScript values that flow through the error-classification
code: absent fields (undefined), numbers and strings. -/
inductive JSVal
  | undef
  | num (n : Int)
  | str (s : String)
deriving DecidableEq, BEq

/-- JavaScript truthiness: undefined is falsy, 0 is falsy, "" is falsy. -/
def JSVal.truthy : JSVal → Bool
  | .undef => false
  | .num n => n != 0
  | .str s => s != ""

/-- The JavaScript expression a || b : a when truthy, otherwise b. -/
def jor (a b : JSVal) : JSVal := if a.truthy then a else b

/-- Template-literal coercion of a JavaScript value to a string. -/
def JSVal.display : JSVal → String
  | .undef => "undefined"
  | .num n => toString n
  | .str s => s

/-- The string expression a || b where a may be absent: a when present and
non-empty (the only falsy string is ""), otherwise b. -/
def jsStrOr (a : Option String) (b : String) : String :=
  match a with
  | some s => if s = "" then b else s
  | none => b

/-- An error value as inspected by the catch blocks: the fields read by the
source are error?.status, error?.error?.status, error?.message and
error?.error?.message. -/
structure GenError where
  status : JSVal
  nestedStatus : JSVal
  message : Option String
  nestedMessage : Option String
deriving DecidableEq, BEq

/-- Containment of a character pattern in a character list, by scanning every
suffix (model of JavaScript String.prototype.includes). -/
def charsContain (pat : List Char) : List Char → Bool
  | [] => pat.isEmpty
  | c :: cs => pat.isPrefixOf (c :: cs) || charsContain pat cs

/-- Model of s.includes(pat) for strings. -/
def jsIncludes (s pat : String) : Bool := charsContain pat.data s.data

/-- Model of s.toLowerCase(): lowercase every character (structural, so it
evaluates in the kernel). -/
def jsToLower (s : String) : String := ⟨s.data.map Char.toLower⟩

/-- The status expression of the first-revision helper (src/index.tsx line 55):
error?.status || error?.error?.status. -/
def effStatusV1 (e : GenError) : JSVal := jor e.status e.nestedStatus

/-- The status expression of the second-revision helper (src/index.tsx line
610): error?.status || error?.error?.status || 500. -/
def effStatusV2 (e : GenError) : JSVal := jor (jor e.status e.nestedStatus) (.num 500)

/-- The message expression of the first-revision helper (src/index.tsx line
56): error?.message || error?.error?.message || "". -/
def effMessageV1 (e : GenError) : String := jsStrOr e.message (jsStrOr e.nestedMessage "")

/-- The message expression of the second-revision helper (src/index.tsx line
611): error?.message || error?.error?.message || "Unknown error". -/
def effMessageV2 (e : GenError) : String :=
  jsStrOr e.message (jsStrOr e.nestedMessage "Unknown error")

/-- Retryability test of the first-revision helper (src/index.tsx lines 58-65,
also src/unnamed/part_002 lines 57-64). -/
def isRetryableV1 (e : GenError) : Bool :=
  let status := effStatusV1 e
  let message := effMessageV1 e
  status == .str "RESOURCE_EXHAUSTED" ||
  status == .num 429 ||
  status == .num 500 ||
  status == .str "INTERNAL" ||
  status == .str "UNKNOWN" ||
  jsIncludes (jsToLower message) "rpc failed" ||
  jsIncludes (jsToLower message) "internal error"

/-- Retryability test of the second-revision helper (src/index.tsx lines
613-619): no "UNKNOWN" arm, and the status was already defaulted to 500. -/
def isRetryableV2 (e : GenError) : Bool :=
  let status := effStatusV2 e
  let message := effMessageV2 e
  status == .str "RESOURCE_EXHAUSTED" ||
  status == .num 429 ||
  status == .num 500 ||
  status == .str "INTERNAL" ||
  jsIncludes (jsToLower message) "rpc failed" ||
  jsIncludes (jsToLower message) "internal error"

/-- Observable outcome of one run of fetchWithRetry: the returned value or the
thrown error (Except.error none models throwing the still-undefined
lastError), the number of invocations of the wrapped operation, and the list
of backoff delays actually waited (in order). -/
structure RetryRun (T : Type) where
  result : Except (Option GenError) T
  invocations : Nat
  delays : List Nat

/-- The loop of fetchWithRetry (src/index.tsx lines 49-76).  The source loop
runs i from 0 while i < maxRetries; here fuel counts the remaining
iterations (fuel = maxRetries - i on entry of each iteration), so the
source guard i < maxRetries - 1 is exactly fuel - 1 > 0 after peeling the
current iteration.  The i-th attempt calls fn i; on a failure e the loop
retries (after a delay of initialDelay * 2 ^ i) when attempts remain and e
is retryable, and otherwise breaks and throws the last error. -/
def retryLoop {T : Type} (isR : GenError → Bool) (fn : Nat → Except GenError T)
    (initialDelay : Nat) : Nat → Nat → Option GenError → RetryRun T
  | 0, _, lastError => ⟨Except.error lastError, 0, []⟩
  | fuel + 1, i, _ =>
    match fn i with
    | Except.ok v => ⟨Except.ok v, 1, []⟩
    | Except.error e =>
      if fuel != 0 && isR e then
        let rest := retryLoop isR fn initialDelay fuel (i + 1) (some e)
        ⟨rest.result, rest.invocations + 1, initialDelay * 2 ^ i :: rest.delays⟩
      else ⟨Except.error (some e), 1, []⟩

/-- First-revision fetchWithRetry (src/index.tsx lines 44-77).  maxRetries is
an integer so that non-positive arguments behave as in the source (the loop
body never runs and the undefined lastError is thrown). -/
def fetchWithRetryV1 {T : Type} (fn : Nat → Except GenError T) (maxRetries : Int)
    (initialDelay : Nat) : RetryRun T :=
  retryLoop isRetryableV1 fn initialDelay maxRetries.toNat 0 none

/-- Second-revision fetchWithRetry (src/index.tsx lines 599-630): same loop,
second-revision retryability classification. -/
def fetchWithRetryV2 {T : Type} (fn : Nat → Except GenError T) (maxRetries : Int)
    (initialDelay : Nat) : RetryRun T :=
  retryLoop isRetryableV2 fn initialDelay maxRetries.toNat 0 none

/-- A response part; inlineData is the optional base64 payload (a part object
with an inlineData field is what the find callback selects). -/
structure ResPart where
  inlineData : Option String
deriving DecidableEq

/-- Candidate content; the parts array is itself optional in the client type. -/
structure ResContent where
  parts : Option (List ResPart)
deriving DecidableEq

/-- One response candidate with optional content. -/
structure ResCandidate where
  content : Option ResContent
deriving DecidableEq

/-- A client response: an optional candidates array. -/
structure GenResponse where
  candidates : Option (List ResCandidate)
deriving DecidableEq

/-- The extraction expression of the controller (src/index.tsx line 732, line
190-191 in the first revision, src/unnamed/part_002 line 179):
response.candidates?.[0]?.content?.parts?.find(p => p.inlineData), then the
inlineData payload of the found part. -/
def findInlinePart (r : GenResponse) : Option String :=
  match r.candidates with
  | some (c :: _) =>
    match c.content with
    | some ct =>
      match ct.parts with
      | some ps =>
        match ps.find? (fun p => p.inlineData.isSome) with
        | some p => p.inlineData
        | none => none
      | none => none
    | none => none
  | _ => none

/-- Observable state of a second-revision SlideBackground instance
(src/index.tsx lines 713-715): imageUrl, loading, errorStatus. -/
structure CtrlState where
  imageUrl : Option String
  loading : Bool
  errorStatus : Option String
deriving DecidableEq

/-- Initial hook state: useState(null), useState(false), useState(null). -/
def initialCtrl : CtrlState := ⟨none, false, none⟩

/-- Truthiness of a nullable string state variable. -/
def optTruthy : Option String → Bool
  | some s => s != ""
  | none => false

/-- Entry of the second-revision fetchImage body after its loading guard
(src/index.tsx lines 720-721): setLoading(true); setErrorStatus(null). -/
def startFetch (s : CtrlState) : CtrlState := { s with loading := true, errorStatus := none }

/-- The synthetic error thrown by the second-revision controller when a
successful response carries no inline image part (src/index.tsx line 736):
a plain Error, so it has a message but no status fields. -/
def missingAssetError : GenError := ⟨.undef, .undef, some "Missing binary asset data.", none⟩

/-- The catch block of the second-revision controller (src/index.tsx lines
738-741): status is error?.status || error?.error?.status || "Error", the
shown text is a template literal of status and error?.message ||
"Generation Failed"; the finally block resets loading. -/
def resolveFailure (s : CtrlState) (e : Option GenError) : CtrlState :=
  let status : JSVal :=
    match e with
    | some err => jor (jor err.status err.nestedStatus) (.str "Error")
    | none => .str "Error"
  let msg : String :=
    match e with
    | some err => jsStrOr err.message "Generation Failed"
    | none => "Generation Failed"
  { s with errorStatus := some (status.display ++ ": " ++ msg), loading := false }

/-- The continuation of the second-revision fetchImage after fetchWithRetry
settles (src/index.tsx lines 732-744): on a response with an inline part,
set imageUrl to the data URL; on a response without one, raise and catch the
missing-asset error; on a helper failure, run the catch block; in every path
the finally block sets loading to false. -/
def resolveFetch (s : CtrlState) (out : Except (Option GenError) GenResponse) : CtrlState :=
  match out with
  | Except.ok r =>
    match findInlinePart r with
    | some d => { s with imageUrl := some ("data:image/png;base64," ++ d), loading := false }
    | none => resolveFailure s (some missingAssetError)
  | Except.error e => resolveFailure s e

/-- The effect guard of the second-revision controller (src/index.tsx line
748) and of src/unnamed/part_002 line 165: isActive && !imageUrl &&
!loading && !errorStatus. -/
def shouldAutoFetchV2 (s : CtrlState) (isActive : Bool) : Bool :=
  isActive && !optTruthy s.imageUrl && !s.loading && !optTruthy s.errorStatus

/-- Observable state of a first-revision SlideBackground instance
(src/index.tsx lines 171-173).  Its catch block can store a non-string
status value in errorStatus, so that field is a JSVal (with undef standing
for the initial null). -/
structure CtrlStateV1 where
  imageUrl : Option String
  loading : Bool
  errorStatus : JSVal
deriving DecidableEq

/-- Initial first-revision hook state. -/
def initialCtrlV1 : CtrlStateV1 := ⟨none, false, .undef⟩

/-- The effect guard of the first-revision controller (src/index.tsx line
176): isActive && !imageUrl && !loading — it does not consult errorStatus. -/
def shouldAutoFetchV1 (s : CtrlStateV1) (isActive : Bool) : Bool :=
  isActive && !optTruthy s.imageUrl && !s.loading

/-- Entry of the first-revision fetch body (src/index.tsx lines 178-179). -/
def startFetchV1 (s : CtrlStateV1) : CtrlStateV1 := { s with loading := true, errorStatus := .undef }

/-- The catch block of the first-revision fetch (src/index.tsx lines 198-203):
errorStatus becomes error?.status || error?.message || "Generation Error"
(note: no nested status lookup here), and the finally block resets
loading. -/
def resolveFailureV1 (s : CtrlStateV1) (e : Option GenError) : CtrlStateV1 :=
  let shown : JSVal :=
    match e with
    | some err =>
      jor err.status
        (jor (match err.message with | some m => .str m | none => .undef) (.str "Generation Error"))
    | none => .str "Generation Error"
  { s with errorStatus := shown, loading := false }

/-- The error thrown by the first-revision controller on a successful response
without an inline image part (src/index.tsx line 196). -/
def missingAssetErrorV1 : GenError :=
  ⟨.undef, .undef, some "No image data found in response parts.", none⟩

/-- The continuation of the first-revision fetch (src/index.tsx lines
190-203): the no-image branch throws Error("No image data found in response
parts."), which the catch block receives; the finally block resets
loading. -/
def resolveFetchV1 (s : CtrlStateV1) (out : Except (Option GenError) GenResponse) : CtrlStateV1 :=
  match out with
  | Except.ok r =>
    match findInlinePart r with
    | some d => { s with imageUrl := some ("data:image/png;base64," ++ d), loading := false }
    | none => resolveFailureV1 s (some missingAssetErrorV1)
  | Except.error e => resolveFailureV1 s e

/-- Events driving one second-revision controller instance: an effect run with
the current visibility, the settling of the in-flight fetch with the
outcome of fetchWithRetry, a click on the retry button, and unmount. -/
inductive CtrlEvent
  | vis (isActive : Bool)
  | settle (out : Except (Option GenError) GenResponse)
  | retryClick
  | unmount

/-- A live component instance: its hook state, the number of fetch bodies
started and not yet settled, whether the component was unmounted, and a
counter of every fetch ever started. -/
structure Inst where
  st : CtrlState
  inflight : Nat
  disposed : Bool
  starts : Nat

/-- Freshly mounted instance. -/
def initInst : Inst := ⟨initialCtrl, 0, false, 0⟩

/-- The fetchImage entry of the second revision (src/index.tsx lines 717-721):
if (loading) return, otherwise the body starts (loading set, errorStatus
cleared, one more fetch in flight). -/
def fetchImageStep (inst : Inst) : Inst :=
  if inst.st.loading then inst
  else { inst with
    st := startFetch inst.st
    inflight := inst.inflight + 1
    starts := inst.starts + 1 }

/-- One step of the instance.  Effects and clicks are delivered only to a
mounted component; the settle continuation, however, is the code of
src/index.tsx lines 732-744, which contains no disposed or mounted check,
so it applies its state writes even after unmount. -/
def ctrlStep (inst : Inst) : CtrlEvent → Inst
  | .vis b =>
    if inst.disposed then inst
    else if shouldAutoFetchV2 inst.st b then fetchImageStep inst
    else inst
  | .retryClick =>
    if inst.disposed then inst else fetchImageStep inst
  | .settle out =>
    if inst.inflight = 0 then inst
    else { inst with st := resolveFetch inst.st out, inflight := inst.inflight - 1 }
  | .unmount => { inst with disposed := true }

/-- Run a list of events from a freshly mounted instance. -/
def ctrlRun (evs : List CtrlEvent) : Inst := evs.foldl ctrlStep initInst

/-- Concrete errors used as test inputs. -/
def e429 : GenError := ⟨.num 429, .undef, none, none⟩

/-- A terminal client failure: HTTP 400 with a plain message. -/
def eBad : GenError := ⟨.num 400, .undef, some "Bad Request", none⟩

/-- A failure carrying no status at all, with a message matching none of the
retryable substrings. -/
def e0 : GenError := ⟨.undef, .undef, some "Invalid prompt supplied.", none⟩

/-- A 503 network failure used for the disposal scenario. -/
def eNet : GenError := ⟨.num 503, .undef, some "Service Unavailable", none⟩

/-- Modelled from the spec (section 4.1) and claim C1 wording: a failure is
retryable if its carried status indicates resource exhaustion
(RESOURCE_EXHAUSTED or 429), server-side transience (an HTTP 500-class
code, that is 500 <= code < 600, or the statuses INTERNAL or UNKNOWN), or
its message contains a case-insensitive internal-RPC-failure substring. -/
def claimRetryable (e : GenError) : Bool :=
  let carried := jor e.status e.nestedStatus
  let msg := jsToLower (jsStrOr e.message (jsStrOr e.nestedMessage ""))
  carried == .str "RESOURCE_EXHAUSTED" ||
  carried == .num 429 ||
  (match carried with | .num n => decide (500 ≤ n ∧ n < 600) | _ => false) ||
  carried == .str "INTERNAL" ||
  carried == .str "UNKNOWN" ||
  jsIncludes msg "rpc failed" ||
  jsIncludes msg "internal error"

/-- Amended classification, following the source: as in the claim but with the
500 arm restricted to the literal code 500. -/
def claimRetryableAmended (e : GenError) : Bool :=
  let carried := jor e.status e.nestedStatus
  let msg := jsToLower (jsStrOr e.message (jsStrOr e.nestedMessage ""))
  carried == .str "RESOURCE_EXHAUSTED" ||
  carried == .num 429 ||
  carried == .num 500 ||
  carried == .str "INTERNAL" ||
  carried == .str "UNKNOWN" ||
  jsIncludes msg "rpc failed" ||
  jsIncludes msg "internal error"

/-- One loop iteration that fails and retries: attempts remain and the error
is retryable. -/
lemma retryLoop_retry_step {T : Type} (isR : GenError → Bool) (fn : Nat → Except GenError T)
    (d fuel i : Nat) (last : Option GenError) (e : GenError)
    (hf : fn i = Except.error e) (hfuel : fuel ≠ 0) (hr : isR e = true) :
    retryLoop isR fn d (fuel + 1) i last =
      ⟨(retryLoop isR fn d fuel (i + 1) (some e)).result,
       (retryLoop isR fn d fuel (i + 1) (some e)).invocations + 1,
       d * 2 ^ i :: (retryLoop isR fn d fuel (i + 1) (some e)).delays⟩ := by
  conv_lhs => rw [retryLoop]
  rw [hf]
  simp [hr, hfuel]

/-- One loop iteration that fails and breaks: either no attempts remain or the
error is not retryable. -/
lemma retryLoop_break_step {T : Type} (isR : GenError → Bool) (fn : Nat → Except GenError T)
    (d fuel i : Nat) (last : Option GenError) (e : GenError)
    (hf : fn i = Except.error e) (hcond : fuel = 0 ∨ isR e = false) :
    retryLoop isR fn d (fuel + 1) i last = ⟨Except.error (some e), 1, []⟩ := by
  conv_lhs => rw [retryLoop]
  rw [hf]
  rcases hcond with h | h <;> simp [h]

/-- One loop iteration that succeeds returns at once. -/
lemma retryLoop_ok_step {T : Type} (isR : GenError → Bool) (fn : Nat → Except GenError T)
    (d fuel i : Nat) (last : Option GenError) (v : T)
    (hf : fn i = Except.ok v) :
    retryLoop isR fn d (fuel + 1) i last = ⟨Except.ok v, 1, []⟩ := by
  conv_lhs => rw [retryLoop]
  rw [hf]

/-- A run over an always-failing retryable operation uses all its fuel and
ends with the last error. -/
lemma retryLoop_allfail {T : Type} (isR : GenError → Bool) (fn : Nat → Except GenError T)
    (errs : Nat → GenError) (hfail : ∀ j, fn j = Except.error (errs j))
    (h : ∀ i, isR (errs i) = true) (d : Nat) :
    ∀ (fuel i : Nat) (last : Option GenError), 1 ≤ fuel →
      (retryLoop isR fn d fuel i last).invocations = fuel ∧
      (retryLoop isR fn d fuel i last).result = Except.error (some (errs (i + fuel - 1))) := by
  intro fuel
  induction fuel with
  | zero => intro i last hf; exact absurd hf (by decide)
  | succ f ih =>
    intro i last _
    cases f with
    | zero =>
      rw [retryLoop_break_step isR fn d 0 i last (errs i) (hfail i) (Or.inl rfl)]
      exact ⟨rfl, by simp⟩
    | succ g =>
      have hrest := ih (i + 1) (some (errs i)) (by omega)
      rw [retryLoop_retry_step isR fn d (g + 1) i last (errs i) (hfail i) (by omega) (h i)]
      refine ⟨by rw [hrest.1], ?_⟩
      rw [hrest.2]
      have hidx : i + 1 + (g + 1) - 1 = i + (g + 1 + 1) - 1 := by omega
      rw [hidx]

/-- Every delay recorded at position k of a run starting at loop index i is
initialDelay * 2 ^ (i + k). -/
lemma retryLoop_delay_formula {T : Type} (isR : GenError → Bool) (fn : Nat → Except GenError T)
    (d : Nat) :
    ∀ (fuel i : Nat) (last : Option GenError) (k x : Nat),
      (retryLoop isR fn d fuel i last).delays.get? k = some x → x = d * 2 ^ (i + k) := by
  intro fuel
  induction fuel with
  | zero => intro i last k x hx; simp [retryLoop] at hx
  | succ f ih =>
    intro i last k x hx
    cases hf : fn i with
    | ok v =>
      rw [retryLoop_ok_step isR fn d f i last v hf] at hx
      simp at hx
    | error e =>
      by_cases hc : f ≠ 0 ∧ isR e = true
      · rw [retryLoop_retry_step isR fn d f i last e hf hc.1 hc.2] at hx
        cases k with
        | zero =>
          simp at hx
          rw [Nat.add_zero]
          omega
        | succ k =>
          have := ih (i + 1) (some e) k x (by simpa using hx)
          rw [this]
          have hidx : i + 1 + k = i + (k + 1) := by omega
          rw [hidx]
      · have hcond : f = 0 ∨ isR e = false := by
          rcases Decidable.not_and_iff_or_not.mp hc with h | h
          · exact Or.inl (by omega)
          · exact Or.inr (by simpa using h)
        rw [retryLoop_break_step isR fn d f i last e hf hcond] at hx
        simp at hx

/-- Claim C6: for every maxAttempts = n >= 1, running fetchWithRetry on an
operation that fails with a retryable error on every invocation results in
exactly n invocations of the operation and then propagates the last
observed failure to the caller. -/
theorem claim6_retryable_exhaustion {T : Type} (fn : Nat → Except GenError T)
    (errs : Nat → GenError) (hfail : ∀ j, fn j = Except.error (errs j))
    (h : ∀ i, isRetryableV1 (errs i) = true) (n : Nat) (hn : 1 ≤ n) (d : Nat) :
    (fetchWithRetryV1 fn n d).invocations = n ∧
    (fetchWithRetryV1 fn n d).result = Except.error (some (errs (n - 1))) := by
  have hmain := retryLoop_allfail isRetryableV1 fn errs hfail h d n 0 none hn
  have hcast : ((n : Int)).toNat = n := Int.toNat_natCast n
  unfold fetchWithRetryV1
  rw [hcast]
  simpa using hmain

/-- Witness for C6 at n = 2 with a constantly 429-failing operation. -/
theorem claim6_retryable_exhaustion_witness :
    (fetchWithRetryV1 (fun _ => (Except.error e429 : Except GenError Unit)) ((2 : Nat) : Int) 1).invocations = 2 ∧
    (fetchWithRetryV1 (fun _ => (Except.error e429 : Except GenError Unit)) ((2 : Nat) : Int) 1).result
      = Except.error (some e429) := by
  exact claim6_retryable_exhaustion (fun _ => (Except.error e429 : Except GenError Unit))
    (fun _ => e429) (fun _ => rfl) (fun _ => (by decide : isRetryableV1 e429 = true)) 2
    (by decide) 1

/-- Claim C7: for every retry index i (0-indexed), the delay fetchWithRetry
waits before retry i equals initialDelay multiplied by 2 to the power i. -/
theorem claim7_backoff_delay {T : Type} (fn : Nat → Except GenError T) (n : Int)
    (d k x : Nat) (h : (fetchWithRetryV1 fn n d).delays.get? k = some x) :
    x = d * 2 ^ k := by
  have := retryLoop_delay_formula isRetryableV1 fn d n.toNat 0 none k x
  simpa using this h

/-- Witness for C7: with three attempts of a constantly 429-failing operation
the second recorded delay is 2000 * 2 ^ 1. -/
theorem claim7_backoff_delay_witness :
    (fetchWithRetryV1 (fun _ => (Except.error e429 : Except GenError Unit)) 3 2000).delays.get? 1
      = some 4000 ∧
    (4000 : Nat) = 2000 * 2 ^ 1 := by
  refine ⟨by decide, ?_⟩
  exact claim7_backoff_delay (fun _ => (Except.error e429 : Except GenError Unit)) 3 2000 1 4000
    (by decide)

/-- Claim C8: for maxAttempts equal to 1, fetchWithRetry performs no retries:
the first failure of the operation propagates to the caller immediately,
regardless of whether it is classified as retryable. -/
theorem claim8_single_attempt {T : Type} (fn : Nat → Except GenError T) (e : GenError)
    (hf : fn 0 = Except.error e) (d : Nat) :
    (fetchWithRetryV1 fn 1 d).result = Except.error (some e) ∧
    (fetchWithRetryV1 fn 1 d).invocations = 1 ∧
    (fetchWithRetryV1 fn 1 d).delays = [] := by
  have h1 : ((1 : Int)).toNat = 0 + 1 := rfl
  unfold fetchWithRetryV1
  rw [h1, retryLoop_break_step isRetryableV1 fn d 0 0 none e hf (Or.inl rfl)]
  exact ⟨rfl, rfl, rfl⟩

/-- Witness for C8 with a retryable (429) first failure: still no retry. -/
theorem claim8_single_attempt_witness :
    (fetchWithRetryV1 (fun _ => (Except.error e429 : Except GenError Unit)) 1 2000).result
      = Except.error (some e429) ∧
    (fetchWithRetryV1 (fun _ => (Except.error e429 : Except GenError Unit)) 1 2000).invocations = 1 ∧
    (fetchWithRetryV1 (fun _ => (Except.error e429 : Except GenError Unit)) 1 2000).delays
      = ([] : List Nat) := by
  exact claim8_single_attempt (fun _ => (Except.error e429 : Except GenError Unit)) e429 rfl 2000

/-- Claim C9 (implicit): if fetchWithRetry is called with maxRetries <= 0, the
wrapped operation is never invoked and the helper throws the uninitialized
lastError value (undefined, modelled as Except.error none). -/
theorem claim9_nonpositive_budget {T : Type} (fn : Nat → Except GenError T) (m : Int)
    (hm : m ≤ 0) (d : Nat) :
    (fetchWithRetryV1 fn m d).result = Except.error none ∧
    (fetchWithRetryV1 fn m d).invocations = 0 ∧
    (fetchWithRetryV2 fn m d).result = Except.error none ∧
    (fetchWithRetryV2 fn m d).invocations = 0 := by
  have h0 : m.toNat = 0 := Int.toNat_of_nonpos hm
  unfold fetchWithRetryV1 fetchWithRetryV2
  rw [h0]
  exact ⟨rfl, rfl, rfl, rfl⟩

/-- Witness for C9 at maxRetries = -1. -/
theorem claim9_nonpositive_budget_witness :
    (fetchWithRetryV1 (fun _ => (Except.error e429 : Except GenError Unit)) (-1) 5).result
      = Except.error none ∧
    (fetchWithRetryV1 (fun _ => (Except.error e429 : Except GenError Unit)) (-1) 5).invocations = 0 ∧
    (fetchWithRetryV2 (fun _ => (Except.error e429 : Except GenError Unit)) (-1) 5).result
      = Except.error none ∧
    (fetchWithRetryV2 (fun _ => (Except.error e429 : Except GenError Unit)) (-1) 5).invocations = 0 := by
  exact claim9_nonpositive_budget (fun _ => (Except.error e429 : Except GenError Unit)) (-1)
    (by decide) 5

/-- Claim C1 counterexample: the failure e0 carries no status and its message
matches no retryable substring, so under the claim every maxAttempts >= 2
run must invoke the operation exactly once; yet the second-revision helper
(src/index.tsx lines 599-630) defaults the missing status to 500, treats
the failure as retryable, and invokes the operation twice. -/
theorem claim1_counterexample :
    claimRetryable e0 = false ∧
    isRetryableV2 e0 = true ∧
    (fetchWithRetryV2 (fun _ => (Except.error e0 : Except GenError Unit)) 2 1).invocations
      = 2 := by
  refine ⟨by decide, by decide, ?_⟩
  have h := retryLoop_allfail isRetryableV2
    (fun _ => (Except.error e0 : Except GenError Unit)) (fun _ => e0) (fun _ => rfl)
    (fun _ => (by decide : isRetryableV2 e0 = true)) 1 2 0 none (by decide)
  exact h.1

/-- Claim C1 amended: the first-revision helper retries a failure exactly when
its effective status (status, else nested status) is literally
RESOURCE_EXHAUSTED, 429, 500, INTERNAL or UNKNOWN, or its effective message
contains rpc failed or internal error case-insensitively; every failure
outside that classification propagates after exactly 1 invocation whenever
maxAttempts >= 2, and the same holds of the second-revision helper with
respect to its own classifier, which additionally defaults a falsy status
to 500 and drops the UNKNOWN arm. -/
theorem claim1_amended_holds :
    (∀ e, isRetryableV1 e = claimRetryableAmended e) ∧
    (∀ (e : GenError) (n d : Nat), 2 ≤ n → isRetryableV1 e = false →
      (fetchWithRetryV1 (fun _ => (Except.error e : Except GenError Unit)) (n : Int) d).invocations = 1 ∧
      (fetchWithRetryV1 (fun _ => (Except.error e : Except GenError Unit)) (n : Int) d).result
        = Except.error (some e)) ∧
    (∀ (e : GenError) (n d : Nat), 2 ≤ n → isRetryableV2 e = false →
      (fetchWithRetryV2 (fun _ => (Except.error e : Except GenError Unit)) (n : Int) d).invocations = 1 ∧
      (fetchWithRetryV2 (fun _ => (Except.error e : Except GenError Unit)) (n : Int) d).result
        = Except.error (some e)) := by
  refine ⟨fun e => rfl, ?_, ?_⟩
  · intro e n d hn hnr
    obtain ⟨m, rfl⟩ : ∃ m, n = m + 1 := ⟨n - 1, by omega⟩
    have hcast : ((m + 1 : Nat) : Int).toNat = m + 1 := Int.toNat_natCast (m + 1)
    unfold fetchWithRetryV1
    rw [hcast, retryLoop_break_step isRetryableV1 _ d m 0 none e rfl (Or.inr hnr)]
    exact ⟨rfl, rfl⟩
  · intro e n d hn hnr
    obtain ⟨m, rfl⟩ : ∃ m, n = m + 1 := ⟨n - 1, by omega⟩
    have hcast : ((m + 1 : Nat) : Int).toNat = m + 1 := Int.toNat_natCast (m + 1)
    unfold fetchWithRetryV2
    rw [hcast, retryLoop_break_step isRetryableV2 _ d m 0 none e rfl (Or.inr hnr)]
    exact ⟨rfl, rfl⟩

/-- Witness for the amended C1: the non-retryable 400 failure eBad is invoked
exactly once under both helpers with maxAttempts = 2. -/
theorem claim1_amended_holds_witness :
    (fetchWithRetryV1 (fun _ => (Except.error eBad : Except GenError Unit)) ((2 : Nat) : Int) 7).invocations = 1 ∧
    (fetchWithRetryV2 (fun _ => (Except.error eBad : Except GenError Unit)) ((2 : Nat) : Int) 7).invocations = 1 := by
  exact ⟨(claim1_amended_holds.2.1 eBad 2 7 (by decide) (by decide)).1,
    (claim1_amended_holds.2.2 eBad 2 7 (by decide) (by decide)).1⟩

/-- The second-revision continuation always ends with loading = false (the
finally block). -/
lemma resolveFetch_loading (s : CtrlState) (out : Except (Option GenError) GenResponse) :
    (resolveFetch s out).loading = false := by
  cases out with
  | ok r =>
    cases h : findInlinePart r with
    | some d => simp [resolveFetch, h]
    | none => simp [resolveFetch, h, resolveFailure]
  | error e => simp [resolveFetch, resolveFailure]

/-- The first-revision continuation always ends with loading = false (the
finally block). -/
lemma resolveFetchV1_loading (s : CtrlStateV1) (out : Except (Option GenError) GenResponse) :
    (resolveFetchV1 s out).loading = false := by
  cases out with
  | ok r =>
    cases h : findInlinePart r with
    | some d => simp [resolveFetchV1, h]
    | none => simp [resolveFetchV1, h, resolveFailureV1]
  | error e => simp [resolveFetchV1, resolveFailureV1]

/-- Single-writer invariant of a controller instance: at most one fetch is in
flight, and the loading flag is set exactly while one is. -/
def oneInflight (inst : Inst) : Prop :=
  inst.inflight ≤ 1 ∧ (inst.st.loading = true ↔ inst.inflight = 1)

/-- fetchImage preserves the invariant: its loading guard refuses to start a
second fetch while one is in flight. -/
lemma fetchImageStep_oneInflight (inst : Inst) (h : oneInflight inst) :
    oneInflight (fetchImageStep inst) := by
  obtain ⟨h1, h2⟩ := h
  by_cases hl : inst.st.loading = true
  · simpa [fetchImageStep, hl] using ⟨h1, h2⟩
  · have h0 : inst.inflight = 0 := by
      rcases Nat.eq_or_lt_of_le h1 with h | h
      · exact absurd (h2.mpr h) hl
      · omega
    simp [fetchImageStep, hl, startFetch, h0, oneInflight]

/-- Every event preserves the single-fetch invariant. -/
lemma ctrlStep_oneInflight (inst : Inst) (ev : CtrlEvent) (h : oneInflight inst) :
    oneInflight (ctrlStep inst ev) := by
  obtain ⟨h1, h2⟩ := h
  cases ev with
  | vis b =>
    simp only [ctrlStep]
    by_cases hd : inst.disposed = true
    · simpa [hd] using ⟨h1, h2⟩
    · simp only [hd, if_false, Bool.false_eq_true]
      by_cases hg : shouldAutoFetchV2 inst.st b = true
      · simpa [hg] using fetchImageStep_oneInflight inst ⟨h1, h2⟩
      · simpa [hg] using ⟨h1, h2⟩
  | retryClick =>
    simp only [ctrlStep]
    by_cases hd : inst.disposed = true
    · simpa [hd] using ⟨h1, h2⟩
    · simpa [hd] using fetchImageStep_oneInflight inst ⟨h1, h2⟩
  | settle out =>
    simp only [ctrlStep]
    by_cases hi : inst.inflight = 0
    · simpa [hi] using ⟨h1, h2⟩
    · simp only [hi, if_false]
      refine ⟨?_, ?_⟩
      · show inst.inflight - 1 ≤ 1
        omega
      · show (resolveFetch inst.st out).loading = true ↔ inst.inflight - 1 = 1
        rw [resolveFetch_loading]
        constructor
        · intro hfalse; exact absurd hfalse (by decide)
        · intro h01; exact absurd h01 (by omega)
  | unmount =>
    exact ⟨h1, h2⟩

/-- The invariant holds along every run from a fresh instance. -/
lemma ctrlRun_go (evs : List CtrlEvent) :
    ∀ inst, oneInflight inst → oneInflight (evs.foldl ctrlStep inst) := by
  induction evs with
  | nil => intro inst h; exact h
  | cons e rest ih => intro inst h; exact ih _ (ctrlStep_oneInflight inst e h)

/-- Claim C4: for every controller, at most one fetch is in flight at any
instant along any event sequence; a visibility signal received while
loading starts nothing, and signalling visibility-active twice in
succession triggers exactly one fetch. -/
theorem claim4_single_inflight :
    (∀ evs : List CtrlEvent, (ctrlRun evs).inflight ≤ 1) ∧
    (∀ inst : Inst, inst.st.loading = true → ctrlStep inst (CtrlEvent.vis true) = inst) ∧
    (ctrlRun [CtrlEvent.vis true, CtrlEvent.vis true]).starts = 1 ∧
    (ctrlRun [CtrlEvent.vis true, CtrlEvent.vis true]).st.loading = true := by
  refine ⟨?_, ?_, by decide, by decide⟩
  · intro evs
    have hinit : oneInflight initInst := by
      constructor
      · decide
      · constructor
        · intro h; exact absurd h (by decide)
        · intro h; exact absurd h (by decide)
    exact (ctrlRun_go evs initInst hinit).1
  · intro inst hl
    simp [ctrlStep, shouldAutoFetchV2, hl]

/-- Witness for C4: a second visibility-active signal delivered to the
already-loading instance changes nothing. -/
theorem claim4_single_inflight_witness :
    ctrlStep (ctrlRun [CtrlEvent.vis true]) (CtrlEvent.vis true) = ctrlRun [CtrlEvent.vis true] :=
  claim4_single_inflight.2.1 (ctrlRun [CtrlEvent.vis true]) (by decide)

/-- Claim C2: the claim states that a fetch settling after disposal leaves the
observable state untouched.  The continuation in the source (src/index.tsx
lines 732-744, likewise lines 198-203 of the first revision) contains no
disposed or mounted check, so the settle after unmount rewrites loading and
errorStatus: here the instance is activated (a fetch starts), unmounted
while the fetch is in flight, and the late failure still flips loading to
false and stores an error text. -/
theorem claim2_post_disposal_mutation :
    (ctrlRun [CtrlEvent.vis true, CtrlEvent.unmount]).disposed = true ∧
    (ctrlRun [CtrlEvent.vis true, CtrlEvent.unmount]).st = ⟨none, true, none⟩ ∧
    (ctrlRun [CtrlEvent.vis true, CtrlEvent.unmount,
        CtrlEvent.settle (Except.error (some eNet))]).st.loading = false ∧
    (ctrlRun [CtrlEvent.vis true, CtrlEvent.unmount,
        CtrlEvent.settle (Except.error (some eNet))]).st.errorStatus
      = some "503: Service Unavailable" := by
  refine ⟨by decide, by decide, by decide, by decide⟩

/-- Claim C3: the claim states that a Failed controller never refetches
automatically.  The first-revision effect guard (src/index.tsx line 176)
omits the errorStatus check, so on the state reached right after a failed
fetch it evaluates to true and a new fetch auto-starts; the second-revision
guard (src/index.tsx line 748, src/unnamed/part_002 line 165) evaluates to
false there, and from Idle an active visibility signal does start exactly
one fetch (positive half of the claim, shown on the second revision). -/
theorem claim3_failed_state_autofetch :
    shouldAutoFetchV1 (resolveFetchV1 (startFetchV1 initialCtrlV1) (Except.error (some eBad)))
      true = true ∧
    shouldAutoFetchV2 (resolveFetch (startFetch initialCtrl) (Except.error (some eBad)))
      true = false ∧
    (resolveFetchV1 (startFetchV1 initialCtrlV1) (Except.error (some eBad))).errorStatus
      = .num 400 ∧
    (resolveFetch (startFetch initialCtrl) (Except.error (some eBad))).errorStatus
      = some "400: Bad Request" ∧
    (ctrlRun [CtrlEvent.vis true]).st.loading = true ∧
    (ctrlRun [CtrlEvent.vis true]).starts = 1 := by
  refine ⟨by decide, by decide, by decide, by decide, by decide, by decide⟩

/-- Claim C5: for every successful client response whose parts contain no
inline image data, the controller transitions to Failed with a
missing-asset-data classification and the wrapped operation is invoked
exactly once; shown for the second-revision pipeline (helper at lines
599-630, controller at lines 717-745) and the first-revision pipeline
(helper at lines 44-77, controller at lines 175-204). -/
theorem claim5_missing_payload (r : GenResponse) (h : findInlinePart r = none)
    (s : CtrlState) (s1 : CtrlStateV1) :
    (fetchWithRetryV2 (fun _ => Except.ok r) 3 2000).invocations = 1 ∧
    resolveFetch (startFetch s) (fetchWithRetryV2 (fun _ => Except.ok r) 3 2000).result
      = ⟨s.imageUrl, false, some "Error: Missing binary asset data."⟩ ∧
    (fetchWithRetryV1 (fun _ => Except.ok r) 3 2000).invocations = 1 ∧
    resolveFetchV1 (startFetchV1 s1) (fetchWithRetryV1 (fun _ => Except.ok r) 3 2000).result
      = ⟨s1.imageUrl, false, .str "No image data found in response parts."⟩ := by
  have h2 : fetchWithRetryV2 (fun _ => Except.ok r) 3 2000 = ⟨Except.ok r, 1, []⟩ := rfl
  have h1 : fetchWithRetryV1 (fun _ => Except.ok r) 3 2000 = ⟨Except.ok r, 1, []⟩ := rfl
  refine ⟨by rw [h2], ?_, by rw [h1], ?_⟩
  · rw [h2]
    show resolveFetch (startFetch s) (Except.ok r) = _
    simp [resolveFetch, h, resolveFailure, startFetch, missingAssetError, jsStrOr, jor,
      JSVal.truthy, JSVal.display]
  · rw [h1]
    show resolveFetchV1 (startFetchV1 s1) (Except.ok r) = _
    simp [resolveFetchV1, h, resolveFailureV1, startFetchV1, missingAssetErrorV1, jor,
      JSVal.truthy]

/-- A concrete success response with one candidate whose parts array is empty. -/
def emptyResponse : GenResponse := ⟨some [⟨some ⟨some []⟩⟩]⟩

/-- Witness for C5 on the empty-parts response from the initial states. -/
theorem claim5_missing_payload_witness :
    (fetchWithRetryV2 (fun _ => Except.ok emptyResponse) 3 2000).invocations = 1 ∧
    resolveFetch (startFetch initialCtrl)
        (fetchWithRetryV2 (fun _ => Except.ok emptyResponse) 3 2000).result
      = ⟨none, false, some "Error: Missing binary asset data."⟩ ∧
    (fetchWithRetryV1 (fun _ => Except.ok emptyResponse) 3 2000).invocations = 1 ∧
    resolveFetchV1 (startFetchV1 initialCtrlV1)
        (fetchWithRetryV1 (fun _ => Except.ok emptyResponse) 3 2000).result
      = ⟨none, false, .str "No image data found in response parts."⟩ :=
  claim5_missing_payload emptyResponse (by decide) initialCtrl initialCtrlV1

/-- Claim C10 (implicit): every fetch attempt of the controller terminates
with the loading flag reset to false — on success, on a missing-payload
failure, and on a helper failure alike — in both controller revisions. -/
theorem claim10_loading_reset :
    (∀ (s : CtrlState) (out : Except (Option GenError) GenResponse),
        (resolveFetch s out).loading = false) ∧
    (∀ (s1 : CtrlStateV1) (out : Except (Option GenError) GenResponse),
        (resolveFetchV1 s1 out).loading = false) :=
  ⟨resolveFetch_loading, resolveFetchV1_loading⟩
